import Mathlib

/-!
Shallow embedding of the ICM42688 driver conversion core
(drivers/sensor/icm42688/icm42688.h): the full-scale enumerations, the
configuration record, the sensitivity switches and the five raw-sample
converters, translated statement by statement from the C source.

Modelling conventions: C `int32_t` values live on `Int` with an explicit
twos-complement wrap (`wrap32`) applied where the C program performs a
32-bit arithmetic operation that can exceed the type or stores into an
`int32_t`; `int64_t` likewise via `wrap64`; a store into a C `uint32_t`
output parameter is the modular reduction `uwrap32`. C integer division
truncates toward zero, which is `Int.tdiv`; C `abs`/`llabs` is `|.|`.
-/

/-- Twos-complement wrap of an integer into the signed 32-bit range,
modelling a C `int32_t` arithmetic result or store. -/
def wrap32 (x : Int) : Int :=
  (x + 2147483648) % 4294967296 - 2147483648

/-- Twos-complement wrap of an integer into the signed 64-bit range,
modelling a C `int64_t` arithmetic result. -/
def wrap64 (x : Int) : Int :=
  (x + 9223372036854775808) % 18446744073709551616 - 9223372036854775808

/-- Modular reduction into the unsigned 32-bit range, modelling a C store
into a `uint32_t` output parameter. -/
def uwrap32 (x : Int) : Int :=
  x % 4294967296

/-- Enumerator `ICM42688_ACCEL_FS_16G` of `enum icm42688_accel_fs` (value 0). -/
def ICM42688_ACCEL_FS_16G : Int := 0

/-- Enumerator `ICM42688_ACCEL_FS_8G` of `enum icm42688_accel_fs` (value 1). -/
def ICM42688_ACCEL_FS_8G : Int := 1

/-- Enumerator `ICM42688_ACCEL_FS_4G` of `enum icm42688_accel_fs` (value 2). -/
def ICM42688_ACCEL_FS_4G : Int := 2

/-- Enumerator `ICM42688_ACCEL_FS_2G` of `enum icm42688_accel_fs` (value 3). -/
def ICM42688_ACCEL_FS_2G : Int := 3

/-- Enumerator `ICM42688_GYRO_FS_2000` of `enum icm42688_gyro_fs` (value 0). -/
def ICM42688_GYRO_FS_2000 : Int := 0

/-- Enumerator `ICM42688_GYRO_FS_1000` of `enum icm42688_gyro_fs` (value 1). -/
def ICM42688_GYRO_FS_1000 : Int := 1

/-- Enumerator `ICM42688_GYRO_FS_500` of `enum icm42688_gyro_fs` (value 2). -/
def ICM42688_GYRO_FS_500 : Int := 2

/-- Enumerator `ICM42688_GYRO_FS_250` of `enum icm42688_gyro_fs` (value 3). -/
def ICM42688_GYRO_FS_250 : Int := 3

/-- Enumerator `ICM42688_GYRO_FS_125` of `enum icm42688_gyro_fs` (value 4). -/
def ICM42688_GYRO_FS_125 : Int := 4

/-- Enumerator `ICM42688_GYRO_FS_62_5` of `enum icm42688_gyro_fs` (value 5). -/
def ICM42688_GYRO_FS_62_5 : Int := 5

/-- Enumerator `ICM42688_GYRO_FS_31_25` of `enum icm42688_gyro_fs` (value 6). -/
def ICM42688_GYRO_FS_31_25 : Int := 6

/-- Enumerator `ICM42688_GYRO_FS_15_625` of `enum icm42688_gyro_fs` (value 7). -/
def ICM42688_GYRO_FS_15_625 : Int := 7

/-- `struct icm42688_cfg` (icm42688.h lines 101-123): the sensor
configuration record. C enum fields are carried as their underlying
integer values, which is what the switch statements in the converters
compare against. -/
structure icm42688_cfg where
  accel_mode : Int
  accel_fs : Int
  accel_odr : Int
  gyro_mode : Int
  gyro_fs : Int
  gyro_odr : Int
  temp_dis : Bool
  fifo_en : Bool
  fifo_wm : Int
  fifo_hires : Bool
deriving DecidableEq, Repr

/-- Modelled from the spec: `SENSOR_G`, the standard-gravity constant
9.80665 in micro-units, defined in the driver headers outside this
repository slice (zephyr/drivers/sensor.h). -/
def SENSOR_G : Int := 9806650

/-- Modelled from the spec: `SENSOR_PI`, the integer pi-scaled constant
(pi in micro-units), defined in the driver headers outside this
repository slice (zephyr/drivers/sensor.h). -/
def SENSOR_PI : Int := 3141592

/-- The `switch (cfg->accel_fs)` of `icm42688_accel_g` (icm42688.h lines
188-203): `sensitivity` is initialised to 0 and assigned only by the four
handled cases; any unhandled selector value falls through and leaves 0. -/
def icm42688_accel_g_sensitivity (fs : Int) : Int :=
  if fs = ICM42688_ACCEL_FS_2G then 16384
  else if fs = ICM42688_ACCEL_FS_4G then 8192
  else if fs = ICM42688_ACCEL_FS_8G then 4096
  else if fs = ICM42688_ACCEL_FS_16G then 2048
  else 0

/-- The `switch (cfg->accel_fs)` of `icm42688_accel_ms` (icm42688.h lines
273-288), identical table to the one in `icm42688_accel_g`. -/
def icm42688_accel_ms_sensitivity (fs : Int) : Int :=
  if fs = ICM42688_ACCEL_FS_2G then 16384
  else if fs = ICM42688_ACCEL_FS_4G then 8192
  else if fs = ICM42688_ACCEL_FS_8G then 4096
  else if fs = ICM42688_ACCEL_FS_16G then 2048
  else 0

/-- The `switch (cfg->gyro_fs)` of `icm42688_gyro_dps` (icm42688.h lines
223-250): `sensitivity` starts at 0; the eight handled cases assign the
table constants; anything else leaves 0. -/
def icm42688_gyro_dps_sensitivity (fs : Int) : Int :=
  if fs = ICM42688_GYRO_FS_2000 then 164
  else if fs = ICM42688_GYRO_FS_1000 then 328
  else if fs = ICM42688_GYRO_FS_500 then 655
  else if fs = ICM42688_GYRO_FS_250 then 1310
  else if fs = ICM42688_GYRO_FS_125 then 2620
  else if fs = ICM42688_GYRO_FS_62_5 then 5243
  else if fs = ICM42688_GYRO_FS_31_25 then 10486
  else if fs = ICM42688_GYRO_FS_15_625 then 20972
  else 0

/-- The `switch (cfg->gyro_fs)` of `icm42688_gyro_rads` (icm42688.h lines
311-338), identical table to the one in `icm42688_gyro_dps`. -/
def icm42688_gyro_rads_sensitivity (fs : Int) : Int :=
  if fs = ICM42688_GYRO_FS_2000 then 164
  else if fs = ICM42688_GYRO_FS_1000 then 328
  else if fs = ICM42688_GYRO_FS_500 then 655
  else if fs = ICM42688_GYRO_FS_250 then 1310
  else if fs = ICM42688_GYRO_FS_125 then 2620
  else if fs = ICM42688_GYRO_FS_62_5 then 5243
  else if fs = ICM42688_GYRO_FS_31_25 then 10486
  else if fs = ICM42688_GYRO_FS_15_625 then 20972
  else 0

/-- `icm42688_accel_g` (icm42688.h lines 185-210): raw accelerometer value
to (whole g, micro g). All arithmetic of the micro-g numerator
`(abs(in) - abs(*out_g) * sensitivity) * 1000000` is C `int` (32-bit)
arithmetic, hence the `wrap32`; the final store is into a `uint32_t`. -/
def icm42688_accel_g (cfg : icm42688_cfg) (x : Int) : Int × Int :=
  let sensitivity := icm42688_accel_g_sensitivity cfg.accel_fs
  let out_g := wrap32 (Int.tdiv x sensitivity)
  let out_ug := uwrap32 (Int.tdiv (wrap32 ((|x| - |out_g| * sensitivity) * 1000000)) sensitivity)
  (out_g, out_ug)

/-- `icm42688_gyro_dps` (icm42688.h lines 220-260): raw gyroscope value to
(whole deg/s, micro deg/s). `in10 = in * 10` is a 32-bit operation; the
micro computation is carried out in `int64_t`. -/
def icm42688_gyro_dps (cfg : icm42688_cfg) (x : Int) : Int × Int :=
  let sensitivity := icm42688_gyro_dps_sensitivity cfg.gyro_fs
  let in10 := wrap32 (x * 10)
  let out_dps := wrap32 (Int.tdiv in10 sensitivity)
  let out_udps := uwrap32 (Int.tdiv ((|in10| - |out_dps| * sensitivity) * 1000000) sensitivity)
  (out_dps, out_udps)

/-- `icm42688_accel_ms` (icm42688.h lines 270-298): raw accelerometer
value to (whole m/s^2, micrometer/s^2). `in_ms = in * SENSOR_G` is an
`int64_t` product; the whole part is stored into an `int32_t`. -/
def icm42688_accel_ms (cfg : icm42688_cfg) (x : Int) : Int × Int :=
  let sensitivity := icm42688_accel_ms_sensitivity cfg.accel_fs
  let in_ms := wrap64 (x * SENSOR_G)
  let out_ms := wrap32 (Int.tdiv in_ms (sensitivity * 1000000))
  let out_ums := uwrap32 (Int.tdiv (|in_ms| - |out_ms| * sensitivity * 1000000) sensitivity)
  (out_ms, out_ums)

/-- `icm42688_gyro_rads` (icm42688.h lines 308-348): raw gyroscope value
to (whole rad/s, micro rad/s). `in10_rads = (int64_t)in * SENSOR_PI * 10`
is an `int64_t` product; the whole part is stored into an `int32_t`. -/
def icm42688_gyro_rads (cfg : icm42688_cfg) (x : Int) : Int × Int :=
  let sensitivity := icm42688_gyro_rads_sensitivity cfg.gyro_fs
  let in10_rads := wrap64 (x * SENSOR_PI * 10)
  let out_rads := wrap32 (Int.tdiv in10_rads (sensitivity * 180 * 1000000))
  let out_urads := uwrap32 (Int.tdiv (|in10_rads| - |out_rads| * sensitivity * 180 * 1000000)
    (sensitivity * 180))
  (out_rads, out_urads)

/-- `icm42688_temp_c` (icm42688.h lines 358-372): raw temperature value to
(whole Celsius, micro Celsius). `in100 = in * 100` is a 32-bit operation;
the fixed sensitivity is 13248 per 100x Celsius; the +25 offset is added
to the whole part only, after truncation. -/
def icm42688_temp_c (x : Int) : Int × Int :=
  let sensitivity : Int := 13248
  let in100 := wrap32 (x * 100)
  let out_c := wrap32 (Int.tdiv in100 sensitivity)
  let out_uc := uwrap32 (Int.tdiv ((|in100| - |out_c| * sensitivity) * 1000000) sensitivity)
  (wrap32 (out_c + 25), out_uc)

/-- Configuration state after a call to `icm42688_accel_g`: the C body
only reads `cfg->accel_fs` and writes through the `out_g` / `out_ug`
pointers; it contains no store into `*cfg`, so the record is unchanged. -/
def icm42688_accel_g_cfg_after (cfg : icm42688_cfg) (_x : Int) : icm42688_cfg := cfg

/-- Configuration state after a call to `icm42688_accel_ms`: the C body
only reads `cfg->accel_fs`; it contains no store into `*cfg`. -/
def icm42688_accel_ms_cfg_after (cfg : icm42688_cfg) (_x : Int) : icm42688_cfg := cfg

/-- Configuration state after a call to `icm42688_gyro_dps`: the C body
only reads `cfg->gyro_fs`; it contains no store into `*cfg`. -/
def icm42688_gyro_dps_cfg_after (cfg : icm42688_cfg) (_x : Int) : icm42688_cfg := cfg

/-- Configuration state after a call to `icm42688_gyro_rads`: the C body
only reads `cfg->gyro_fs`; it contains no store into `*cfg`. -/
def icm42688_gyro_rads_cfg_after (cfg : icm42688_cfg) (_x : Int) : icm42688_cfg := cfg

/-- A concrete configuration selecting the 2G accelerometer range
(`accel_fs = ICM42688_ACCEL_FS_2G`) and the 2000 deg/s gyro range. -/
def cfg_fs2g : icm42688_cfg :=
  { accel_mode := 3, accel_fs := 3, accel_odr := 6,
    gyro_mode := 3, gyro_fs := 0, gyro_odr := 6,
    temp_dis := false, fifo_en := false, fifo_wm := 0, fifo_hires := false }

theorem wrap32_id (x : Int) (h1 : -2147483648 ≤ x) (h2 : x < 2147483648) : wrap32 x = x := by
  unfold wrap32
  omega

theorem wrap64_id (x : Int) (h1 : -9223372036854775808 ≤ x)
    (h2 : x < 9223372036854775808) : wrap64 x = x := by
  unfold wrap64
  omega

theorem uwrap32_id (x : Int) (h1 : 0 ≤ x) (h2 : x < 4294967296) : uwrap32 x = x := by
  unfold uwrap32
  omega

theorem abs_tdiv_eq (a b : Int) (hb : 0 < b) : |Int.tdiv a b| = |a| / b := by
  rcases le_or_lt 0 a with h | h
  · rw [Int.tdiv_eq_ediv h (le_of_lt hb), abs_of_nonneg h,
      abs_of_nonneg (Int.ediv_nonneg h (le_of_lt hb))]
  · have h2 : 0 ≤ -a := by omega
    have e : Int.tdiv a b = -Int.tdiv (-a) b := by rw [Int.neg_tdiv, neg_neg]
    rw [e, abs_neg, Int.tdiv_eq_ediv h2 (le_of_lt hb),
      abs_of_nonneg (Int.ediv_nonneg h2 (le_of_lt hb)), abs_of_neg h]

theorem sub_abs_tdiv_mul (a b : Int) (hb : 0 < b) :
    |a| - |Int.tdiv a b| * b = |a| % b := by
  rw [abs_tdiv_eq a b hb, Int.emod_def]
  ring

/-- Decomposition of the scaled-remainder pattern used by the converters
whose micro part is `((|a| - |a / s| * s) * 1000000) / s` with the whole
part stored into a 32-bit integer: the store is lossless, the micro part
equals the remainder scaled to micro-units and lies in [0, 1000000). -/
theorem tdiv_micro_scaled (a s : Int) (hs : 0 < s) (hw : |a| < 2147483648 * s) :
    wrap32 (Int.tdiv a s) = Int.tdiv a s ∧
    Int.tdiv ((|a| - |Int.tdiv a s| * s) * 1000000) s = |a| % s * 1000000 / s ∧
    0 ≤ |a| % s * 1000000 / s ∧
    |a| % s * 1000000 / s < 1000000 ∧
    uwrap32 (|a| % s * 1000000 / s) = |a| % s * 1000000 / s ∧
    |Int.tdiv a s| ≤ |a| := by
  have hsne : s ≠ 0 := by omega
  have habs : |Int.tdiv a s| = |a| / s := abs_tdiv_eq a s hs
  have ha0 : 0 ≤ |a| := abs_nonneg a
  have hq : |a| / s < 2147483648 := (Int.ediv_lt_iff_lt_mul hs).mpr (by omega)
  have ht : |Int.tdiv a s| < 2147483648 := by rw [habs]; exact hq
  obtain ⟨ht1, ht2⟩ := abs_lt.mp ht
  have hrem : |a| - |Int.tdiv a s| * s = |a| % s := sub_abs_tdiv_mul a s hs
  have hr0 : 0 ≤ |a| % s := Int.emod_nonneg _ hsne
  have hrlt : |a| % s < s := Int.emod_lt_of_pos _ hs
  have h2 : Int.tdiv ((|a| - |Int.tdiv a s| * s) * 1000000) s = |a| % s * 1000000 / s := by
    rw [hrem, Int.tdiv_eq_ediv (by omega) (le_of_lt hs)]
  have h3 : 0 ≤ |a| % s * 1000000 / s :=
    Int.ediv_nonneg (by omega) (le_of_lt hs)
  have h4 : |a| % s * 1000000 / s < 1000000 :=
    (Int.ediv_lt_iff_lt_mul hs).mpr (by omega)
  exact ⟨wrap32_id _ (by omega) ht2, h2, h3, h4, uwrap32_id _ h3 (by omega),
    by rw [habs]; exact Int.ediv_le_self s ha0⟩

/-- Decomposition of the wide-divisor pattern used by the converters whose
whole part divides by `s * d` and whose micro part is
`(|a| - |a / (s * d)| * (s * d)) / s`: the 32-bit store of the whole part
is lossless, the micro part is the remainder divided by `s` and lies in
[0, d), and the back-multiplied whole part never exceeds `|a|`. -/
theorem tdiv_micro_wide (a s d : Int) (hs : 0 < s) (hd : 0 < d)
    (hdle : d ≤ 4294967296) (hw : |a| < 2147483648 * (s * d)) :
    wrap32 (Int.tdiv a (s * d)) = Int.tdiv a (s * d) ∧
    Int.tdiv (|a| - |Int.tdiv a (s * d)| * (s * d)) s = |a| % (s * d) / s ∧
    0 ≤ |a| % (s * d) / s ∧
    |a| % (s * d) / s < d ∧
    uwrap32 (|a| % (s * d) / s) = |a| % (s * d) / s ∧
    |Int.tdiv a (s * d)| ≤ |a| ∧
    |Int.tdiv a (s * d)| * (s * d) ≤ |a| := by
  have hsd : 0 < s * d := mul_pos hs hd
  have hsdne : s * d ≠ 0 := by omega
  have habs : |Int.tdiv a (s * d)| = |a| / (s * d) := abs_tdiv_eq a (s * d) hsd
  have ha0 : 0 ≤ |a| := abs_nonneg a
  have hq : |a| / (s * d) < 2147483648 := (Int.ediv_lt_iff_lt_mul hsd).mpr (by omega)
  have ht : |Int.tdiv a (s * d)| < 2147483648 := by rw [habs]; exact hq
  obtain ⟨ht1, ht2⟩ := abs_lt.mp ht
  have hrem : |a| - |Int.tdiv a (s * d)| * (s * d) = |a| % (s * d) :=
    sub_abs_tdiv_mul a (s * d) hsd
  have hr0 : 0 ≤ |a| % (s * d) := Int.emod_nonneg _ hsdne
  have hrlt : |a| % (s * d) < s * d := Int.emod_lt_of_pos _ hsd
  have h2 : Int.tdiv (|a| - |Int.tdiv a (s * d)| * (s * d)) s = |a| % (s * d) / s := by
    rw [hrem, Int.tdiv_eq_ediv hr0 (le_of_lt hs)]
  have h3 : 0 ≤ |a| % (s * d) / s := Int.ediv_nonneg hr0 (le_of_lt hs)
  have h4 : |a| % (s * d) / s < d :=
    (Int.ediv_lt_iff_lt_mul hs).mpr (by rw [mul_comm d s]; exact hrlt)
  have h7 : |Int.tdiv a (s * d)| * (s * d) ≤ |a| := by
    rw [habs]; exact Int.ediv_mul_le _ hsdne
  exact ⟨wrap32_id _ (by omega) ht2, h2, h3, h4, uwrap32_id _ h3 (by omega),
    by rw [habs]; exact Int.ediv_le_self _ ha0, h7⟩

theorem accel_g_sens_bounds (fs : Int) (h1 : 0 ≤ fs) (h2 : fs ≤ 3) :
    2048 ≤ icm42688_accel_g_sensitivity fs ∧ icm42688_accel_g_sensitivity fs ≤ 16384 := by
  unfold icm42688_accel_g_sensitivity ICM42688_ACCEL_FS_2G ICM42688_ACCEL_FS_4G
    ICM42688_ACCEL_FS_8G ICM42688_ACCEL_FS_16G
  split_ifs <;> omega

theorem accel_ms_sens_bounds (fs : Int) (h1 : 0 ≤ fs) (h2 : fs ≤ 3) :
    2048 ≤ icm42688_accel_ms_sensitivity fs ∧ icm42688_accel_ms_sensitivity fs ≤ 16384 := by
  unfold icm42688_accel_ms_sensitivity ICM42688_ACCEL_FS_2G ICM42688_ACCEL_FS_4G
    ICM42688_ACCEL_FS_8G ICM42688_ACCEL_FS_16G
  split_ifs <;> omega

theorem gyro_dps_sens_bounds (fs : Int) (h1 : 0 ≤ fs) (h2 : fs ≤ 7) :
    164 ≤ icm42688_gyro_dps_sensitivity fs ∧ icm42688_gyro_dps_sensitivity fs ≤ 20972 := by
  unfold icm42688_gyro_dps_sensitivity ICM42688_GYRO_FS_2000 ICM42688_GYRO_FS_1000
    ICM42688_GYRO_FS_500 ICM42688_GYRO_FS_250 ICM42688_GYRO_FS_125 ICM42688_GYRO_FS_62_5
    ICM42688_GYRO_FS_31_25 ICM42688_GYRO_FS_15_625
  split_ifs <;> omega

theorem gyro_rads_sens_bounds (fs : Int) (h1 : 0 ≤ fs) (h2 : fs ≤ 7) :
    164 ≤ icm42688_gyro_rads_sensitivity fs ∧ icm42688_gyro_rads_sensitivity fs ≤ 20972 := by
  unfold icm42688_gyro_rads_sensitivity ICM42688_GYRO_FS_2000 ICM42688_GYRO_FS_1000
    ICM42688_GYRO_FS_500 ICM42688_GYRO_FS_250 ICM42688_GYRO_FS_125 ICM42688_GYRO_FS_62_5
    ICM42688_GYRO_FS_31_25 ICM42688_GYRO_FS_15_625
  split_ifs <;> omega

/-- C1: refuted on the code. The whole-g part is indeed `r / sensitivity`
with truncation, but the micro-g numerator
`(abs(in) - abs(*out_g) * sensitivity) * 1000000` is computed in 32-bit
`int`; at full scale 2G and raw value 32767 the remainder is 16383 and the
product 16383000000 overflows, so the converter stores fractional part
4294918659, far outside [0, 1000000). -/
theorem claim_C1_accel_g_frac_overflow :
    icm42688_accel_g cfg_fs2g 32767 = (1, 4294918659) ∧
    ¬(icm42688_accel_g cfg_fs2g 32767).2 < 1000000 := by
  decide

/-- C2: refuted on the code. A full-scale selector value outside the
enumerated set falls through every case of the sensitivity switch (which
has no default) and leaves the constant at its initial value 0: no
configuration error is reported, and the function proceeds to divide by
the zero sensitivity. -/
theorem claim_C2_unmapped_selector_keeps_zero (afs gfs : Int)
    (ha : afs < 0 ∨ 3 < afs) (hg : gfs < 0 ∨ 7 < gfs) :
    icm42688_accel_g_sensitivity afs = 0 ∧
    icm42688_accel_ms_sensitivity afs = 0 ∧
    icm42688_gyro_dps_sensitivity gfs = 0 ∧
    icm42688_gyro_rads_sensitivity gfs = 0 := by
  obtain ⟨e0, e1, e2, e3⟩ : afs ≠ 0 ∧ afs ≠ 1 ∧ afs ≠ 2 ∧ afs ≠ 3 := by omega
  obtain ⟨f0, f1, f2, f3, f4, f5, f6, f7⟩ :
      gfs ≠ 0 ∧ gfs ≠ 1 ∧ gfs ≠ 2 ∧ gfs ≠ 3 ∧ gfs ≠ 4 ∧ gfs ≠ 5 ∧ gfs ≠ 6 ∧ gfs ≠ 7 := by
    omega
  refine ⟨?_, ?_, ?_, ?_⟩ <;>
    simp [icm42688_accel_g_sensitivity, icm42688_accel_ms_sensitivity,
      icm42688_gyro_dps_sensitivity, icm42688_gyro_rads_sensitivity,
      ICM42688_ACCEL_FS_2G, ICM42688_ACCEL_FS_4G, ICM42688_ACCEL_FS_8G, ICM42688_ACCEL_FS_16G,
      ICM42688_GYRO_FS_2000, ICM42688_GYRO_FS_1000, ICM42688_GYRO_FS_500, ICM42688_GYRO_FS_250,
      ICM42688_GYRO_FS_125, ICM42688_GYRO_FS_62_5, ICM42688_GYRO_FS_31_25,
      ICM42688_GYRO_FS_15_625, e0, e1, e2, e3, f0, f1, f2, f3, f4, f5, f6, f7]

/-- C2 witness: the first out-of-enumeration selector on each side (accel
4, gyro 8) yields sensitivity 0 from every lookup. -/
theorem claim_C2_witness :
    icm42688_accel_g_sensitivity 4 = 0 ∧
    icm42688_accel_ms_sensitivity 4 = 0 ∧
    icm42688_gyro_dps_sensitivity 8 = 0 ∧
    icm42688_gyro_rads_sensitivity 8 = 0 :=
  claim_C2_unmapped_selector_keeps_zero 4 8 (Or.inr (by norm_num)) (Or.inr (by norm_num))

/-- C3: refuted on the code. The formula the claim gives indeed evaluates
to 999938, but at full scale 2G and raw 32767 the converter does not
return it: the 32-bit overflow of the micro-g numerator makes the stored
fractional part 4294918659 instead (the whole part 1 is as claimed). -/
theorem claim_C3_boundary_r32767_fs2g :
    (32767 - 16384) * 1000000 / 16384 = (999938 : Int) ∧
    (icm42688_accel_g cfg_fs2g 32767).1 = 1 ∧
    (icm42688_accel_g cfg_fs2g 32767).2 = 4294918659 ∧
    icm42688_accel_g cfg_fs2g 32767 ≠ (1, 999938) := by
  decide

/-- C5: confirmed. Both gyro converters map the eight enumerated
full-scale selectors (2000, 1000, 500, 250, 125, 62.5, 31.25,
15.625 deg/s, ordinals 0..7) to exactly the literal table constants 164,
328, 655, 1310, 2620, 5243, 10486, 20972. -/
theorem claim_C5_gyro_sens_table :
    icm42688_gyro_dps_sensitivity ICM42688_GYRO_FS_2000 = 164 ∧
    icm42688_gyro_rads_sensitivity ICM42688_GYRO_FS_2000 = 164 ∧
    icm42688_gyro_dps_sensitivity ICM42688_GYRO_FS_1000 = 328 ∧
    icm42688_gyro_rads_sensitivity ICM42688_GYRO_FS_1000 = 328 ∧
    icm42688_gyro_dps_sensitivity ICM42688_GYRO_FS_500 = 655 ∧
    icm42688_gyro_rads_sensitivity ICM42688_GYRO_FS_500 = 655 ∧
    icm42688_gyro_dps_sensitivity ICM42688_GYRO_FS_250 = 1310 ∧
    icm42688_gyro_rads_sensitivity ICM42688_GYRO_FS_250 = 1310 ∧
    icm42688_gyro_dps_sensitivity ICM42688_GYRO_FS_125 = 2620 ∧
    icm42688_gyro_rads_sensitivity ICM42688_GYRO_FS_125 = 2620 ∧
    icm42688_gyro_dps_sensitivity ICM42688_GYRO_FS_62_5 = 5243 ∧
    icm42688_gyro_rads_sensitivity ICM42688_GYRO_FS_62_5 = 5243 ∧
    icm42688_gyro_dps_sensitivity ICM42688_GYRO_FS_31_25 = 10486 ∧
    icm42688_gyro_rads_sensitivity ICM42688_GYRO_FS_31_25 = 10486 ∧
    icm42688_gyro_dps_sensitivity ICM42688_GYRO_FS_15_625 = 20972 ∧
    icm42688_gyro_rads_sensitivity ICM42688_GYRO_FS_15_625 = 20972 := by
  decide

/-- C6 counterexample: the temperature converter at raw 0 returns
(25, 0), not (0, 0), because of the +25 Celsius offset. -/
theorem claim_C6_counterexample : icm42688_temp_c 0 ≠ (0, 0) := by
  decide

/-- C6 (amended): at raw value 0 every motion converter returns (0, 0)
for every configuration, and the temperature converter returns (25, 0):
the claimed round-trip holds for all converters except temperature, whose
fixed calibration offset shifts the whole part to 25. -/
theorem claim_C6_zero_raw (cfg : icm42688_cfg) :
    icm42688_accel_g cfg 0 = (0, 0) ∧
    icm42688_accel_ms cfg 0 = (0, 0) ∧
    icm42688_gyro_dps cfg 0 = (0, 0) ∧
    icm42688_gyro_rads cfg 0 = (0, 0) ∧
    icm42688_temp_c 0 = (25, 0) := by
  refine ⟨?_, ?_, ?_, ?_, by decide⟩ <;>
    norm_num [icm42688_accel_g, icm42688_accel_ms, icm42688_gyro_dps, icm42688_gyro_rads,
      wrap32, wrap64, uwrap32, Int.zero_tdiv]

/-- C9: confirmed. For any configuration whose full-scale fields are in
the enumerated ranges, every divisor appearing in the five converters is
strictly positive: the sensitivity switches assign a non-zero constant in
each enumerated case, so no division by zero is reached. -/
theorem claim_C9_divisors_positive (cfg : icm42688_cfg)
    (h1 : 0 ≤ cfg.accel_fs) (h2 : cfg.accel_fs ≤ 3)
    (h3 : 0 ≤ cfg.gyro_fs) (h4 : cfg.gyro_fs ≤ 7) :
    0 < icm42688_accel_g_sensitivity cfg.accel_fs ∧
    0 < icm42688_accel_ms_sensitivity cfg.accel_fs ∧
    0 < icm42688_accel_ms_sensitivity cfg.accel_fs * 1000000 ∧
    0 < icm42688_gyro_dps_sensitivity cfg.gyro_fs ∧
    0 < icm42688_gyro_rads_sensitivity cfg.gyro_fs ∧
    0 < icm42688_gyro_rads_sensitivity cfg.gyro_fs * 180 * 1000000 ∧
    0 < icm42688_gyro_rads_sensitivity cfg.gyro_fs * 180 ∧
    0 < (13248 : Int) := by
  obtain ⟨ha1, ha2⟩ := accel_g_sens_bounds cfg.accel_fs h1 h2
  obtain ⟨hb1, hb2⟩ := accel_ms_sens_bounds cfg.accel_fs h1 h2
  obtain ⟨hc1, hc2⟩ := gyro_dps_sens_bounds cfg.gyro_fs h3 h4
  obtain ⟨hd1, hd2⟩ := gyro_rads_sens_bounds cfg.gyro_fs h3 h4
  omega

/-- C9 witness: the concrete 2G / 2000 deg/s configuration has all
divisors strictly positive. -/
theorem claim_C9_witness :
    0 < icm42688_accel_g_sensitivity cfg_fs2g.accel_fs ∧
    0 < icm42688_accel_ms_sensitivity cfg_fs2g.accel_fs ∧
    0 < icm42688_accel_ms_sensitivity cfg_fs2g.accel_fs * 1000000 ∧
    0 < icm42688_gyro_dps_sensitivity cfg_fs2g.gyro_fs ∧
    0 < icm42688_gyro_rads_sensitivity cfg_fs2g.gyro_fs ∧
    0 < icm42688_gyro_rads_sensitivity cfg_fs2g.gyro_fs * 180 * 1000000 ∧
    0 < icm42688_gyro_rads_sensitivity cfg_fs2g.gyro_fs * 180 ∧
    0 < (13248 : Int) :=
  claim_C9_divisors_positive cfg_fs2g (by decide) (by decide) (by decide) (by decide)

/-- C10: confirmed. Each converter is a pure function of the configuration
and the raw value: the post-call configuration state equals the pre-call
one (the C bodies contain no store into `*cfg`), and calls on equal
configurations and equal raw inputs return equal (whole, fractional)
pairs. -/
theorem claim_C10_converters_pure (cfg : icm42688_cfg) (x : Int) :
    icm42688_accel_g_cfg_after cfg x = cfg ∧
    icm42688_accel_ms_cfg_after cfg x = cfg ∧
    icm42688_gyro_dps_cfg_after cfg x = cfg ∧
    icm42688_gyro_rads_cfg_after cfg x = cfg ∧
    ∀ cfg2 x2, cfg2 = cfg → x2 = x →
      icm42688_accel_g cfg2 x2 = icm42688_accel_g cfg x ∧
      icm42688_accel_ms cfg2 x2 = icm42688_accel_ms cfg x ∧
      icm42688_gyro_dps cfg2 x2 = icm42688_gyro_dps cfg x ∧
      icm42688_gyro_rads cfg2 x2 = icm42688_gyro_rads cfg x ∧
      icm42688_temp_c x2 = icm42688_temp_c x := by
  refine ⟨rfl, rfl, rfl, rfl, ?_⟩
  rintro cfg2 x2 rfl rfl
  exact ⟨rfl, rfl, rfl, rfl, rfl⟩

/-- C10 witness: instantiation at the concrete 2G / 2000 deg/s
configuration and raw value 7. -/
theorem claim_C10_witness :
    icm42688_accel_g_cfg_after cfg_fs2g 7 = cfg_fs2g ∧
    icm42688_accel_ms_cfg_after cfg_fs2g 7 = cfg_fs2g ∧
    icm42688_gyro_dps_cfg_after cfg_fs2g 7 = cfg_fs2g ∧
    icm42688_gyro_rads_cfg_after cfg_fs2g 7 = cfg_fs2g ∧
    (icm42688_accel_g cfg_fs2g 7 = icm42688_accel_g cfg_fs2g 7 ∧
      icm42688_accel_ms cfg_fs2g 7 = icm42688_accel_ms cfg_fs2g 7 ∧
      icm42688_gyro_dps cfg_fs2g 7 = icm42688_gyro_dps cfg_fs2g 7 ∧
      icm42688_gyro_rads cfg_fs2g 7 = icm42688_gyro_rads cfg_fs2g 7 ∧
      icm42688_temp_c 7 = icm42688_temp_c 7) := by
  obtain ⟨h1, h2, h3, h4, h5⟩ := claim_C10_converters_pure cfg_fs2g 7
  exact ⟨h1, h2, h3, h4, h5 cfg_fs2g 7 rfl rfl⟩

/-- C4: confirmed. For raw values in [-32768, 32767] the temperature
converter computes whole = (r * 100) / 13248 with truncation toward zero,
derives the micro-Celsius part from the remainder of that same division
before any offset is applied, and only then adds the fixed +25 to the
whole part; the fractional part lies in [0, 1000000), and raw 0 yields
(25, 0). -/
theorem claim_C4_temp_c (x : Int) (hx1 : -32768 ≤ x) (hx2 : x ≤ 32767) :
    (icm42688_temp_c x).1 = Int.tdiv (x * 100) 13248 + 25 ∧
    (icm42688_temp_c x).2 = |x * 100| % 13248 * 1000000 / 13248 ∧
    0 ≤ (icm42688_temp_c x).2 ∧ (icm42688_temp_c x).2 < 1000000 ∧
    icm42688_temp_c 0 = (25, 0) := by
  have efst : (icm42688_temp_c x).1 =
      wrap32 (wrap32 (Int.tdiv (wrap32 (x * 100)) 13248) + 25) := rfl
  have esnd : (icm42688_temp_c x).2 =
      uwrap32 (Int.tdiv ((|wrap32 (x * 100)| -
        |wrap32 (Int.tdiv (wrap32 (x * 100)) 13248)| * 13248) * 1000000) 13248) := rfl
  have e1 : wrap32 (x * 100) = x * 100 := wrap32_id _ (by omega) (by omega)
  rw [e1] at efst esnd
  obtain ⟨a1, a2, a3, a4, a5, a6⟩ := tdiv_micro_scaled (x * 100) 13248 (by norm_num)
    (by rw [abs_lt]; omega)
  rw [a1] at efst esnd
  have habs : |x * 100| ≤ 3276800 := by rw [abs_le]; omega
  obtain ⟨hb1, hb2⟩ := abs_le.mp (le_trans a6 habs)
  have e2 : wrap32 (Int.tdiv (x * 100) 13248 + 25) = Int.tdiv (x * 100) 13248 + 25 :=
    wrap32_id _ (by omega) (by omega)
  rw [e2] at efst
  rw [a2, a5] at esnd
  exact ⟨efst, esnd, by rw [esnd]; exact a3, by rw [esnd]; exact a4, by decide⟩

/-- C4 witness: instantiation at raw value 13248 (one full sensitivity
step, whole part 100 + 25). -/
theorem claim_C4_witness :
    (icm42688_temp_c 13248).1 = Int.tdiv (13248 * 100) 13248 + 25 ∧
    (icm42688_temp_c 13248).2 = |(13248 : Int) * 100| % 13248 * 1000000 / 13248 ∧
    0 ≤ (icm42688_temp_c 13248).2 ∧ (icm42688_temp_c 13248).2 < 1000000 ∧
    icm42688_temp_c 0 = (25, 0) :=
  claim_C4_temp_c 13248 (by norm_num) (by norm_num)

/-- C8: confirmed. For every in-range accel full-scale selector and raw
value in [-32768, 32767], the m/s^2 converter scales the raw value by the
micro-unit gravity constant `SENSOR_G`, takes the whole part as the
truncating division of that product by (sensitivity * 1000000), derives
the micrometer/s^2 part as the absolute-value remainder divided by the
sensitivity, and that fractional part lies in [0, 1000000). -/
theorem claim_C8_accel_ms (cfg : icm42688_cfg) (x : Int)
    (hf1 : 0 ≤ cfg.accel_fs) (hf2 : cfg.accel_fs ≤ 3)
    (hx1 : -32768 ≤ x) (hx2 : x ≤ 32767) :
    (icm42688_accel_ms cfg x).1 =
      Int.tdiv (x * SENSOR_G) (icm42688_accel_ms_sensitivity cfg.accel_fs * 1000000) ∧
    (icm42688_accel_ms cfg x).2 =
      |x * SENSOR_G| % (icm42688_accel_ms_sensitivity cfg.accel_fs * 1000000) /
        icm42688_accel_ms_sensitivity cfg.accel_fs ∧
    0 ≤ (icm42688_accel_ms cfg x).2 ∧
    (icm42688_accel_ms cfg x).2 < 1000000 := by
  obtain ⟨hs1, hs2⟩ := accel_ms_sens_bounds cfg.accel_fs hf1 hf2
  have efst : (icm42688_accel_ms cfg x).1 =
      wrap32 (Int.tdiv (wrap64 (x * SENSOR_G))
        (icm42688_accel_ms_sensitivity cfg.accel_fs * 1000000)) := rfl
  have esnd : (icm42688_accel_ms cfg x).2 =
      uwrap32 (Int.tdiv (|wrap64 (x * SENSOR_G)| -
        |wrap32 (Int.tdiv (wrap64 (x * SENSOR_G))
          (icm42688_accel_ms_sensitivity cfg.accel_fs * 1000000))| *
          icm42688_accel_ms_sensitivity cfg.accel_fs * 1000000)
        (icm42688_accel_ms_sensitivity cfg.accel_fs)) := rfl
  have e1 : wrap64 (x * SENSOR_G) = x * SENSOR_G := by
    apply wrap64_id <;> (simp only [SENSOR_G]; omega)
  rw [e1] at efst esnd
  obtain ⟨b1, b2, b3, b4, b5, b6, b7⟩ := tdiv_micro_wide (x * SENSOR_G)
    (icm42688_accel_ms_sensitivity cfg.accel_fs) 1000000
    (by omega) (by norm_num) (by norm_num)
    (by rw [abs_lt]; simp only [SENSOR_G]; omega)
  rw [b1] at esnd
  have hassoc : |Int.tdiv (x * SENSOR_G)
      (icm42688_accel_ms_sensitivity cfg.accel_fs * 1000000)| *
      icm42688_accel_ms_sensitivity cfg.accel_fs * 1000000 =
      |Int.tdiv (x * SENSOR_G)
      (icm42688_accel_ms_sensitivity cfg.accel_fs * 1000000)| *
      (icm42688_accel_ms_sensitivity cfg.accel_fs * 1000000) := by
    ring
  rw [hassoc, b2, b5] at esnd
  exact ⟨by rw [efst, b1], esnd, by rw [esnd]; exact b3, by rw [esnd]; exact b4⟩

/-- C8 witness: instantiation at the 2G configuration and raw value
-32768. -/
theorem claim_C8_witness :
    (icm42688_accel_ms cfg_fs2g (-32768)).1 =
      Int.tdiv ((-32768) * SENSOR_G)
        (icm42688_accel_ms_sensitivity cfg_fs2g.accel_fs * 1000000) ∧
    (icm42688_accel_ms cfg_fs2g (-32768)).2 =
      |(-32768 : Int) * SENSOR_G| %
        (icm42688_accel_ms_sensitivity cfg_fs2g.accel_fs * 1000000) /
        icm42688_accel_ms_sensitivity cfg_fs2g.accel_fs ∧
    0 ≤ (icm42688_accel_ms cfg_fs2g (-32768)).2 ∧
    (icm42688_accel_ms cfg_fs2g (-32768)).2 < 1000000 :=
  claim_C8_accel_ms cfg_fs2g (-32768) (by decide) (by decide) (by norm_num) (by norm_num)

/-- C7: confirmed. For every in-range gyro full-scale selector and raw
value in [-32768, 32767], the rad/s converter premultiplies the raw value
by the pi-scaled constant and 10, takes the whole part as the truncating
division by (sensitivity * 180 * 1000000), derives the micro-rad/s part
as the absolute-value remainder divided by (sensitivity * 180), its
product stays inside the signed 64-bit range and the back-multiplied
whole part never exceeds the numerator, and the fractional part lies in
[0, 1000000). -/
theorem claim_C7_gyro_rads (cfg : icm42688_cfg) (x : Int)
    (hf1 : 0 ≤ cfg.gyro_fs) (hf2 : cfg.gyro_fs ≤ 7)
    (hx1 : -32768 ≤ x) (hx2 : x ≤ 32767) :
    (icm42688_gyro_rads cfg x).1 =
      Int.tdiv (x * SENSOR_PI * 10)
        (icm42688_gyro_rads_sensitivity cfg.gyro_fs * 180 * 1000000) ∧
    (icm42688_gyro_rads cfg x).2 =
      |x * SENSOR_PI * 10| % (icm42688_gyro_rads_sensitivity cfg.gyro_fs * 180 * 1000000) /
        (icm42688_gyro_rads_sensitivity cfg.gyro_fs * 180) ∧
    -9223372036854775808 ≤ x * SENSOR_PI * 10 ∧
    x * SENSOR_PI * 10 < 9223372036854775808 ∧
    |Int.tdiv (x * SENSOR_PI * 10)
        (icm42688_gyro_rads_sensitivity cfg.gyro_fs * 180 * 1000000)| *
      (icm42688_gyro_rads_sensitivity cfg.gyro_fs * 180 * 1000000) ≤ |x * SENSOR_PI * 10| ∧
    0 ≤ (icm42688_gyro_rads cfg x).2 ∧
    (icm42688_gyro_rads cfg x).2 < 1000000 := by
  obtain ⟨hs1, hs2⟩ := gyro_rads_sens_bounds cfg.gyro_fs hf1 hf2
  have efst : (icm42688_gyro_rads cfg x).1 =
      wrap32 (Int.tdiv (wrap64 (x * SENSOR_PI * 10))
        (icm42688_gyro_rads_sensitivity cfg.gyro_fs * 180 * 1000000)) := rfl
  have esnd : (icm42688_gyro_rads cfg x).2 =
      uwrap32 (Int.tdiv (|wrap64 (x * SENSOR_PI * 10)| -
        |wrap32 (Int.tdiv (wrap64 (x * SENSOR_PI * 10))
          (icm42688_gyro_rads_sensitivity cfg.gyro_fs * 180 * 1000000))| *
          icm42688_gyro_rads_sensitivity cfg.gyro_fs * 180 * 1000000)
        (icm42688_gyro_rads_sensitivity cfg.gyro_fs * 180)) := rfl
  have e1 : wrap64 (x * SENSOR_PI * 10) = x * SENSOR_PI * 10 := by
    apply wrap64_id <;> (simp only [SENSOR_PI]; omega)
  rw [e1] at efst esnd
  obtain ⟨b1, b2, b3, b4, b5, b6, b7⟩ := tdiv_micro_wide (x * SENSOR_PI * 10)
    (icm42688_gyro_rads_sensitivity cfg.gyro_fs * 180) 1000000
    (by omega) (by norm_num) (by norm_num)
    (by rw [abs_lt]; simp only [SENSOR_PI]; omega)
  rw [b1] at esnd
  have hassoc : |Int.tdiv (x * SENSOR_PI * 10)
      (icm42688_gyro_rads_sensitivity cfg.gyro_fs * 180 * 1000000)| *
      icm42688_gyro_rads_sensitivity cfg.gyro_fs * 180 * 1000000 =
      |Int.tdiv (x * SENSOR_PI * 10)
      (icm42688_gyro_rads_sensitivity cfg.gyro_fs * 180 * 1000000)| *
      (icm42688_gyro_rads_sensitivity cfg.gyro_fs * 180 * 1000000) := by
    ring
  rw [hassoc, b2, b5] at esnd
  refine ⟨by rw [efst, b1], esnd, by simp only [SENSOR_PI]; omega,
    by simp only [SENSOR_PI]; omega, b7, by rw [esnd]; exact b3, by rw [esnd]; exact b4⟩

/-- C7 witness: instantiation at the 2000 deg/s configuration and raw
value 1000. -/
theorem claim_C7_witness :
    (icm42688_gyro_rads cfg_fs2g 1000).1 =
      Int.tdiv (1000 * SENSOR_PI * 10)
        (icm42688_gyro_rads_sensitivity cfg_fs2g.gyro_fs * 180 * 1000000) ∧
    (icm42688_gyro_rads cfg_fs2g 1000).2 =
      |(1000 : Int) * SENSOR_PI * 10| %
        (icm42688_gyro_rads_sensitivity cfg_fs2g.gyro_fs * 180 * 1000000) /
        (icm42688_gyro_rads_sensitivity cfg_fs2g.gyro_fs * 180) ∧
    -9223372036854775808 ≤ (1000 : Int) * SENSOR_PI * 10 ∧
    (1000 : Int) * SENSOR_PI * 10 < 9223372036854775808 ∧
    |Int.tdiv ((1000 : Int) * SENSOR_PI * 10)
        (icm42688_gyro_rads_sensitivity cfg_fs2g.gyro_fs * 180 * 1000000)| *
      (icm42688_gyro_rads_sensitivity cfg_fs2g.gyro_fs * 180 * 1000000) ≤
      |(1000 : Int) * SENSOR_PI * 10| ∧
    0 ≤ (icm42688_gyro_rads cfg_fs2g 1000).2 ∧
    (icm42688_gyro_rads cfg_fs2g 1000).2 < 1000000 :=
  claim_C7_gyro_rads cfg_fs2g 1000 (by decide) (by decide) (by norm_num) (by norm_num)
